import Mathlib

/-!
Verification of the client-side presence / online-status subsystem of the
blade repository.  The embedding below translates the presence code
(`src/hooks/use-online-status.ts`, `src/lib/presence.ts`,
`src/lib/presence-final.ts` and the presence setup in the firebase module)
into pure Lean functions.  A single run of an asynchronous operation is
modelled at one instant `now` (milliseconds since the epoch, a `Nat`);
JavaScript's `a - b` only ever feeds one-sided comparisons against positive
thresholds in this code, so truncated `Nat` subtraction agrees with it on
every branch condition.
-/

namespace Blade

/-- The status values the code writes to `users/{uid}.status`. -/
inductive Status where
  | online
  | away
  | offline
deriving DecidableEq, Repr

/-- One device record in `users/{uid}/devices`.  `lastSeen` is in ms since
the epoch; the code coerces a missing `lastSeen` with `|| 0`, so `0` encodes
"no lastSeen at all".  `status` is written by some operations but never read
by the resolver; `none` means the field is absent. -/
structure Device where
  id : Nat
  lastSeen : Nat
  status : Option Status
deriving DecidableEq, Repr

/-- The presence summary embedded in the user profile document
(`users/{uid}`).  `lastActive` is `none` when the field is absent. -/
structure Profile where
  status : Status
  lastSeen : Nat
  deviceCount : Nat
  lastActive : Option Nat
deriving DecidableEq, Repr

/-- The per-user firestore state the resolver touches: the profile document
(`none` when it does not exist) and the device registry. -/
structure UserState where
  profile : Option Profile
  devices : List Device
deriving DecidableEq, Repr

-- Thresholds from src/hooks/use-online-status.ts
def DEVICE_STALENESS_THRESHOLD : Nat := 15 * 1000
def OFFLINE_THRESHOLD : Nat := 30 * 1000
/-- `24 * 60 * 60 * 1000`, the inactivity bound in the resolver. -/
def DAY_MS : Nat := 24 * 60 * 60 * 1000

/-- Filter for `activeDevices` / `actualActiveDevices`:
`device.lastSeen && (now - device.lastSeen) < DEVICE_STALENESS_THRESHOLD`. -/
def isActive (now : Nat) (d : Device) : Bool :=
  d.lastSeen != 0 && now - d.lastSeen < DEVICE_STALENESS_THRESHOLD

/-- Filter for `inactiveDevices` / `actualInactiveDevices`. -/
def isInactive (now : Nat) (d : Device) : Bool :=
  d.lastSeen != 0 && DEVICE_STALENESS_THRESHOLD ≤ now - d.lastSeen
    && now - d.lastSeen < OFFLINE_THRESHOLD

/-- Filter for `staleDevices`:
`!device.lastSeen || (now - device.lastSeen) >= OFFLINE_THRESHOLD`. -/
def isStale (now : Nat) (d : Device) : Bool :=
  d.lastSeen == 0 || OFFLINE_THRESHOLD ≤ now - d.lastSeen

/-- The write the cleanup pass performs on each stale device:
`updateDoc(staleRef, { status: 'offline', lastSeen: Timestamp.now() })`
(a merge, despite the surrounding comment saying "delete"). -/
def markStale (now : Nat) (d : Device) : Device :=
  if isStale now d then { d with status := some Status.offline, lastSeen := now } else d

/-- `Math.max(...currentDevices.map(d => d.lastSeen))` for a non-empty list. -/
def maxLastSeen (ds : List Device) : Nat :=
  (ds.map Device.lastSeen).foldl max 0

/-- `userData?.lastActive?.toDate?.().getTime() || now`: a missing field or
a zero timestamp both fall back to `now`. -/
def lastActiveVal (p : Profile) (now : Nat) : Nat :=
  match p.lastActive with
  | some t => if t = 0 then now else t
  | none => now

/-- The body of the `runTransaction` in `cleanupAndUpdateStatus`: re-read
the registry, classify, and write the resolved summary onto the profile
`p`.  Translated clause by clause from src/hooks/use-online-status.ts. -/
def resolveTransaction (p : Profile) (ds : List Device) (now : Nat) : Profile :=
  if ds.isEmpty then
    -- "No devices = definitely offline"; `lastActive: userDoc.data()?.lastActive || Timestamp.now()`
    { status := Status.offline, lastSeen := now, deviceCount := 0,
      lastActive := some (p.lastActive.getD now) }
  else
    let actualActiveDevices := ds.filter (isActive now)
    let actualInactiveDevices := ds.filter (isInactive now)
    let mostRecentActivity := maxLastSeen ds
    let timeSinceLastActivity := now - mostRecentActivity
    if OFFLINE_THRESHOLD ≤ timeSinceLastActivity then
      { status := Status.offline, lastSeen := now, deviceCount := 0,
        lastActive := some (p.lastActive.getD now) }
    else if actualActiveDevices.length > 0
        && timeSinceLastActivity < DEVICE_STALENESS_THRESHOLD then
      { status := Status.online, lastSeen := now,
        deviceCount := actualActiveDevices.length, lastActive := some now }
    else
      { status := if timeSinceLastActivity < OFFLINE_THRESHOLD then Status.away
                  else Status.offline,
        lastSeen := now, deviceCount := actualInactiveDevices.length,
        -- `new Timestamp(Math.floor(mostRecentActivity / 1000), 0)`
        lastActive := some (if mostRecentActivity != 0
                            then (mostRecentActivity / 1000) * 1000 else now) }

/-- Console messages the resolver can emit. -/
def userNotFoundMsg : String := "User document not found"
def cleanupErrorMsg : String := "Error in cleanup and status update"

/-- Result of one run: the new firestore state plus the console log.  The
function being total mirrors the outer `try/catch`: no exception ever
propagates to the caller of `cleanupAndUpdateStatus`. -/
structure RunResult where
  state : UserState
  log : List String
deriving DecidableEq, Repr

/-- One run of `cleanupAndUpdateStatus` from src/hooks/use-online-status.ts,
at instant `now`.  `registryReadFails` models `getDocs(query(devicesRef))`
throwing; the throw lands in the outer `catch`, which logs and returns. -/
def cleanupAndUpdateStatus (st : UserState) (now : Nat)
    (registryReadFails : Bool) : RunResult :=
  match st.profile with
  | none => ⟨st, [userNotFoundMsg]⟩
  | some p =>
    -- "Force offline if user document indicates offline"
    if p.status = Status.offline then ⟨st, []⟩
    else if registryReadFails then ⟨st, [cleanupErrorMsg]⟩
    -- "If no devices, mark user as offline immediately"
    else if st.devices.isEmpty then
      ⟨{ st with profile := some { p with
          status := Status.offline, deviceCount := 0, lastSeen := now } }, []⟩
    else
      -- "If user has been inactive for more than a day, mark them as offline"
      if DAY_MS < now - lastActiveVal p now then
        ⟨{ st with profile := some { p with
            status := Status.offline, deviceCount := 0, lastSeen := now } }, []⟩
      else
        -- mark every stale device, then run the resolution transaction on
        -- the registry as re-read after those writes
        let ds := st.devices.map (markStale now)
        ⟨{ profile := some (resolveTransaction p ds now), devices := ds }, []⟩

/-- Status re-derived purely from the device records' staleness at `now`,
i.e. the classification the resolver's transaction performs (the profile
argument only influences the `lastActive` it writes, never the status). -/
def derivedStatus (ds : List Device) (now : Nat) : Status :=
  (resolveTransaction ⟨Status.offline, 0, 0, none⟩ ds now).status

/-! Presence operations that write the profile `status` field outside the
resolver. -/

/-- `updatePresence(isOnline)` from the firebase presence setup: writes
`status: isOnline ? 'online' : 'offline'` and `lastSeen` straight onto the
user's profile document (a merge), never consulting the device registry. -/
def updatePresence (isOnline : Bool) (now : Nat) (p : Profile) : Profile :=
  { p with status := if isOnline then Status.online else Status.offline,
           lastSeen := now }

/-- The initialization transaction of `setupPresence` in src/lib/presence.ts:
`transaction.set(deviceRef, { lastSeen: Timestamp.now(), ... })` and
`transaction.update(userRef, { deviceCount: increment(1), status: 'online',
lastSeen: serverTimestamp(), ... })`. -/
def setupPresenceInit (deviceId : Nat) (now : Nat) (p : Profile)
    (ds : List Device) : Profile × List Device :=
  ({ p with status := Status.online, lastSeen := now,
            deviceCount := p.deviceCount + 1 },
   ds ++ [⟨deviceId, now, none⟩])

/-! The `PresenceManager` singleton of src/lib/presence-final.ts, for the
`setOfflineStatus` operation. -/

/-- One realtime-database presence record at `/status/{uid}`. -/
structure PresenceRec where
  state : Status
  lastChanged : Nat
  lastHeartbeat : Option Nat
deriving DecidableEq, Repr

/-- The backend documents `setOffline` touches: firestore user profiles and
realtime-database presence records, both keyed by uid. -/
structure AppStore where
  profiles : List (String × Profile)
  presence : List (String × PresenceRec)
deriving DecidableEq, Repr

/-- `updateDoc` on `users/{u}`: merges into the document if it exists,
leaves the store unchanged for an absent key (the returned promise rejects,
which `setOffline` catches and logs). -/
def updateProfileDoc (u : String) (f : Profile → Profile)
    (l : List (String × Profile)) : List (String × Profile) :=
  l.map fun kv => if kv.1 = u then (kv.1, f kv.2) else kv

/-- Realtime-database `set` on `/status/{u}`: replaces the record, creating
it when absent. -/
def setPresenceRec (u : String) (r : PresenceRec)
    (l : List (String × PresenceRec)) : List (String × PresenceRec) :=
  if l.any (fun kv => kv.1 = u) then
    l.map fun kv => if kv.1 = u then (kv.1, r) else kv
  else
    (u, r) :: l

/-- The part of the `PresenceManager` state that decides what `setOffline`
does: `presenceRef`/`userDocRef` are both non-null exactly when
`initialize(uid)` has run and not been cleaned up, and both point at the
uid it was initialized with. -/
structure ManagerState where
  currentUid : Option String
deriving DecidableEq, Repr

/-- `PresenceManager.setOffline`: returns immediately when the refs are
null; otherwise writes `{state: 'offline', lastChanged, lastHeartbeat: null}`
to the presence record and `{status: 'offline', lastSeen}` to the profile
of the manager's current uid. -/
def PresenceManager.setOffline (m : ManagerState) (now : Nat)
    (s : AppStore) : AppStore :=
  match m.currentUid with
  | none => s
  | some u =>
    { profiles := updateProfileDoc u
        (fun p => { p with status := Status.offline, lastSeen := now }) s.profiles,
      presence := setPresenceRec u ⟨Status.offline, now, none⟩ s.presence }

/-- `setOfflineStatus(uid)` from src/lib/presence-final.ts: delegates to the
singleton manager's `setOffline`; the `uid` argument is not used. -/
def setOfflineStatus (uid : String) (m : ManagerState) (now : Nat)
    (s : AppStore) : AppStore :=
  PresenceManager.setOffline m now s

/-! Helper lemmas about `maxLastSeen`. -/

theorem foldl_max_init_le (l : List Nat) (a : Nat) : a ≤ l.foldl max a := by
  induction l generalizing a with
  | nil => simp
  | cons x t ih => exact le_trans (le_max_left a x) (ih (max a x))

theorem le_foldl_max (l : List Nat) (a x : Nat) (h : x ∈ l) : x ≤ l.foldl max a := by
  induction l generalizing a with
  | nil => cases h
  | cons y t ih =>
    rcases List.mem_cons.mp h with rfl | hx
    · exact le_trans (le_max_right a x) (foldl_max_init_le t (max a x))
    · exact ih (max a y) hx

theorem le_maxLastSeen (ds : List Device) (d : Device) (h : d ∈ ds) :
    d.lastSeen ≤ maxLastSeen ds :=
  le_foldl_max _ 0 _ (List.mem_map_of_mem Device.lastSeen h)

theorem foldl_max_eq_or_mem (l : List Nat) (a : Nat) :
    l.foldl max a = a ∨ l.foldl max a ∈ l := by
  induction l generalizing a with
  | nil => exact Or.inl rfl
  | cons x t ih =>
    rcases ih (max a x) with h | h
    · rcases max_choice a x with hax | hax
      · exact Or.inl (by rw [List.foldl_cons, h, hax])
      · exact Or.inr (by rw [List.foldl_cons, h, hax]; exact List.mem_cons_self x t)
    · exact Or.inr (List.mem_cons_of_mem x h)

theorem exists_maxLastSeen (ds : List Device) (hds : ds ≠ []) :
    ∃ d ∈ ds, d.lastSeen = maxLastSeen ds := by
  rcases foldl_max_eq_or_mem (ds.map Device.lastSeen) 0 with h | h
  · obtain ⟨d0, t⟩ : ∃ d0 t, ds = d0 :: t := by
      cases ds with
      | nil => exact absurd rfl hds
      | cons d0 t => exact ⟨d0, t, rfl⟩
    obtain ⟨t, rfl⟩ := t
    refine ⟨d0, List.mem_cons_self d0 t, ?_⟩
    have hle := le_maxLastSeen _ d0 (List.mem_cons_self d0 t)
    have hz : maxLastSeen (d0 :: t) = 0 := h
    omega
  · obtain ⟨d, hd, hde⟩ := List.mem_map.mp h
    exact ⟨d, hd, hde⟩

/-! Facts about the stale-marking pass. -/

theorem markStale_not_stale (now : Nat) (d : Device) (h : isStale now d = false) :
    markStale now d = d := by
  simp [markStale, h]

theorem isActive_markStale_of_isActive (now : Nat) (d : Device)
    (h : isActive now d = true) : isActive now (markStale now d) = true := by
  have hns : isStale now d = false := by
    simp only [isActive, Bool.and_eq_true, bne_iff_ne, ne_eq,
      decide_eq_true_eq] at h
    simp only [isStale, Bool.or_eq_false_iff, beq_eq_false_iff_ne, ne_eq,
      decide_eq_false_iff_not, not_le]
    exact ⟨h.1, lt_of_lt_of_le h.2 (by norm_num [DEVICE_STALENESS_THRESHOLD, OFFLINE_THRESHOLD])⟩
  rw [markStale_not_stale now d hns]
  exact h

/-! Lookup lemmas for the keyed document stores. -/

theorem lookup_updateProfileDoc (u : String) (f : Profile → Profile)
    (l : List (String × Profile)) :
    (updateProfileDoc u f l).lookup u = (l.lookup u).map f := by
  induction l with
  | nil => rfl
  | cons kv t ih =>
    obtain ⟨k, v⟩ := kv
    simp only [updateProfileDoc, List.map] at ih ⊢
    by_cases hk : k = u
    · subst hk
      rw [if_pos rfl]
      simp [List.lookup]
    · rw [if_neg hk]
      have hbeq : (u == k) = false := by
        simp only [beq_eq_false_iff_ne, ne_eq]
        exact fun h => hk h.symm
      simp [List.lookup, hbeq]
      exact ih

theorem lookup_map_replace (u : String) (r : PresenceRec)
    (l : List (String × PresenceRec))
    (h : l.any (fun kv => kv.1 = u) = true) :
    (l.map fun kv => if kv.1 = u then (kv.1, r) else kv).lookup u = some r := by
  induction l with
  | nil => cases h
  | cons kv t ih =>
    obtain ⟨k, v⟩ := kv
    simp only [List.map]
    by_cases hk : k = u
    · subst hk
      rw [if_pos rfl]
      simp [List.lookup]
    · have hbeq : (u == k) = false := by
        simp only [beq_eq_false_iff_ne, ne_eq]
        exact fun h' => hk h'.symm
      simp only [List.any_cons, Bool.or_eq_true, decide_eq_true_eq] at h
      rcases h with h | h
      · exact absurd h hk
      · rw [if_neg hk]
        simp [List.lookup, hbeq]
        exact ih h

theorem lookup_setPresenceRec (u : String) (r : PresenceRec)
    (l : List (String × PresenceRec)) :
    (setPresenceRec u r l).lookup u = some r := by
  unfold setPresenceRec
  cases h : l.any (fun kv => kv.1 = u) with
  | true => simp only [if_pos rfl]; exact lookup_map_replace u r l h
  | false => simp [List.lookup]

/-- C7 (counterexample to the claim as stated): `setOfflineStatus(userId)`
delegates to the singleton manager and ignores its argument; when the
manager has not been initialized (null refs) the call writes nothing, so the
profile of the passed userId keeps `status = 'online'`. -/
theorem setOfflineStatus_uninitialized_cex :
    (setOfflineStatus "u1" ⟨none⟩ 100
        ⟨[("u1", ⟨Status.online, 50, 1, none⟩)], []⟩).profiles.lookup "u1"
      = some ⟨Status.online, 50, 1, none⟩ ∧
    Status.online ≠ Status.offline := by
  constructor
  · rfl
  · decide

/-- C7 (amended): when the presence manager has been initialized for some
uid `u` (non-null refs), `setOfflineStatus` immediately writes
`status = 'offline'` onto `u`'s profile document (merging, when it exists)
and replaces `u`'s realtime presence record with
`{state: 'offline', lastHeartbeat: null}` — for the manager's current uid
`u`, whatever `userId` argument was passed; with an uninitialized manager
it writes nothing. -/
theorem setOffline_writes_current_user (uid u : String) (m : ManagerState)
    (now : Nat) (s : AppStore) (hm : m.currentUid = some u) :
    (setOfflineStatus uid m now s).profiles.lookup u
        = (s.profiles.lookup u).map
            (fun p => { p with status := Status.offline, lastSeen := now }) ∧
    (setOfflineStatus uid m now s).presence.lookup u
        = some ⟨Status.offline, now, none⟩ := by
  obtain ⟨cu⟩ := m
  cases cu with
  | none => cases hm
  | some w =>
    have hw : w = u := by injection hm
    subst hw
    simp only [setOfflineStatus, PresenceManager.setOffline]
    exact ⟨lookup_updateProfileDoc _ _ s.profiles,
           lookup_setPresenceRec _ _ s.presence⟩

theorem setOffline_writes_current_user_witness :
    (setOfflineStatus "x" ⟨some "u1"⟩ 100
        ⟨[("u1", ⟨Status.online, 1, 2, none⟩)], []⟩).profiles.lookup "u1"
        = ((⟨[("u1", ⟨Status.online, 1, 2, none⟩)], []⟩ : AppStore).profiles.lookup
            "u1").map
            (fun p => { p with status := Status.offline, lastSeen := 100 }) ∧
    (setOfflineStatus "x" ⟨some "u1"⟩ 100
        ⟨[("u1", ⟨Status.online, 1, 2, none⟩)], []⟩).presence.lookup "u1"
        = some ⟨Status.offline, 100, none⟩ :=
  setOffline_writes_current_user "x" "u1" ⟨some "u1"⟩ 100
    ⟨[("u1", ⟨Status.online, 1, 2, none⟩)], []⟩ rfl

/-! Helper lemmas for idempotence of the resolver. -/

theorem lastActiveVal_mk_some (s : Status) (ls dc t now : Nat) :
    lastActiveVal ⟨s, ls, dc, some t⟩ now = if t = 0 then now else t := rfl

theorem lastActiveVal_mk_none (s : Status) (ls dc now : Nat) :
    lastActiveVal ⟨s, ls, dc, none⟩ now = now := rfl

theorem markStale_idem (now : Nat) (d : Device) :
    markStale now (markStale now d) = markStale now d := by
  by_cases h : isStale now d = true
  · simp only [markStale, h, if_true]
    by_cases hn : now = 0
    · subst hn
      have h2 : isStale 0 { d with status := some Status.offline, lastSeen := 0 }
          = true := by
        simp [isStale]
      simp [h2]
    · have h2 : isStale now { d with status := some Status.offline, lastSeen := now }
          = false := by
        simp only [isStale, Bool.or_eq_false_iff, beq_eq_false_iff_ne, ne_eq,
          decide_eq_false_iff_not, not_le]
        exact ⟨hn, by simp [OFFLINE_THRESHOLD]⟩
      simp [markStale, h2]
  · have h' : isStale now d = false := by
      revert h; cases isStale now d <;> simp
    simp [markStale, h']

theorem map_markStale_idem (now : Nat) (ds : List Device) :
    (ds.map (markStale now)).map (markStale now) = ds.map (markStale now) := by
  rw [List.map_map]
  exact List.map_congr_left fun d _ => markStale_idem now d

theorem resolveTransaction_indep (p q : Profile) (ds : List Device) (now : Nat)
    (h : (resolveTransaction p ds now).status ≠ Status.offline) :
    resolveTransaction q ds now = resolveTransaction p ds now := by
  simp only [resolveTransaction] at h ⊢
  split_ifs at h ⊢ <;> first | rfl | exact absurd rfl h

theorem resolveTransaction_lastActive_recent (p : Profile) (ds : List Device)
    (now : Nat) (h : (resolveTransaction p ds now).status ≠ Status.offline) :
    now - lastActiveVal (resolveTransaction p ds now) now ≤ DAY_MS := by
  simp only [resolveTransaction] at h ⊢
  split_ifs at h ⊢ <;>
    first
      | exact absurd rfl h
      | (simp only [lastActiveVal_mk_some]
         split_ifs <;> simp only [DAY_MS, OFFLINE_THRESHOLD, not_le] at * <;>
           omega)

/-- C8: the resolver is idempotent — running `cleanupAndUpdateStatus` twice
in immediate succession (same instant, no intervening heartbeat) leaves the
firestore state produced by the first run unchanged: the second run resolves
the same status, deviceCount and device classification, so the status never
flaps. -/
theorem cleanupAndUpdateStatus_idempotent (st : UserState) (now : Nat)
    (f : Bool) :
    (cleanupAndUpdateStatus (cleanupAndUpdateStatus st now f).state now f).state
      = (cleanupAndUpdateStatus st now f).state := by
  obtain ⟨prof, devs⟩ := st
  cases prof with
  | none => simp [cleanupAndUpdateStatus]
  | some p =>
    by_cases hoff : p.status = Status.offline
    · simp [cleanupAndUpdateStatus, hoff]
    · cases f with
      | true => simp [cleanupAndUpdateStatus, hoff]
      | false =>
        cases hemp : devs.isEmpty with
        | true => simp [cleanupAndUpdateStatus, hoff, hemp]
        | false =>
          by_cases hday : DAY_MS < now - lastActiveVal p now
          · simp [cleanupAndUpdateStatus, hoff, hemp, hday]
          · have hrun1 : (cleanupAndUpdateStatus ⟨some p, devs⟩ now false).state
                = ⟨some (resolveTransaction p (devs.map (markStale now)) now),
                   devs.map (markStale now)⟩ := by
              simp [cleanupAndUpdateStatus, hoff, hemp, hday]
            rw [hrun1]
            by_cases hqoff :
                (resolveTransaction p (devs.map (markStale now)) now).status
                  = Status.offline
            · simp [cleanupAndUpdateStatus, hqoff]
            · have hemp' : (devs.map (markStale now)).isEmpty = false := by
                cases devs with
                | nil => simp [List.isEmpty] at hemp
                | cons a t => rfl
              have hday' : ¬(DAY_MS < now -
                  lastActiveVal (resolveTransaction p (devs.map (markStale now)) now) now) :=
                not_lt.2 (resolveTransaction_lastActive_recent p _ now hqoff)
              have hrun2 : (cleanupAndUpdateStatus
                    ⟨some (resolveTransaction p (devs.map (markStale now)) now),
                     devs.map (markStale now)⟩ now false).state
                  = ⟨some (resolveTransaction
                        (resolveTransaction p (devs.map (markStale now)) now)
                        ((devs.map (markStale now)).map (markStale now)) now),
                     (devs.map (markStale now)).map (markStale now)⟩ := by
                simp [cleanupAndUpdateStatus, hqoff, hemp', hday']
              rw [hrun2, map_markStale_idem now devs,
                resolveTransaction_indep p _ _ now hqoff]

/-- C10: if the user's profile document already carries `status = 'offline'`,
`cleanupAndUpdateStatus` returns before any read of the registry or any
write: the whole firestore state is unchanged and nothing is logged, so the
resolver alone never flips an offline user back to online or away. -/
theorem offline_profile_early_return (st : UserState) (p : Profile) (now : Nat)
    (f : Bool) (hp : st.profile = some p) (hoff : p.status = Status.offline) :
    cleanupAndUpdateStatus st now f = ⟨st, []⟩ := by
  obtain ⟨prof, devs⟩ := st
  cases prof with
  | none => cases hp
  | some q =>
    obtain rfl : q = p := by injection hp
    simp [cleanupAndUpdateStatus, hoff]

theorem offline_profile_early_return_witness :
    cleanupAndUpdateStatus ⟨some ⟨Status.offline, 5, 7, none⟩, [⟨1, 95000, none⟩]⟩
        100000 true
      = ⟨⟨some ⟨Status.offline, 5, 7, none⟩, [⟨1, 95000, none⟩]⟩, []⟩ :=
  offline_profile_early_return _ ⟨Status.offline, 5, 7, none⟩ 100000 true rfl rfl

/-- C6: when the device-registry read throws, the run performs no write at
all — profile status, lastSeen, deviceCount and every device record are
unchanged — the failure is logged by the outer catch, and the function
still returns normally (it is total), so no exception reaches the caller. -/
theorem registry_read_failure_no_writes (st : UserState) (p : Profile)
    (now : Nat) (hp : st.profile = some p)
    (hoff : p.status ≠ Status.offline) :
    cleanupAndUpdateStatus st now true = ⟨st, [cleanupErrorMsg]⟩ := by
  obtain ⟨prof, devs⟩ := st
  cases prof with
  | none => cases hp
  | some q =>
    obtain rfl : q = p := by injection hp
    simp [cleanupAndUpdateStatus, hoff]

theorem registry_read_failure_no_writes_witness :
    cleanupAndUpdateStatus ⟨some ⟨Status.online, 5, 7, some 90000⟩,
        [⟨1, 95000, none⟩]⟩ 100000 true
      = ⟨⟨some ⟨Status.online, 5, 7, some 90000⟩, [⟨1, 95000, none⟩]⟩,
         [cleanupErrorMsg]⟩ :=
  registry_read_failure_no_writes _ ⟨Status.online, 5, 7, some 90000⟩ 100000
    rfl (by decide)

/-- C9: when the profile's `lastActive` is more than 24 hours before `now`,
the resolver writes `status = 'offline'`, `deviceCount = 0` and
`lastSeen = now` and returns without classifying or touching any device
record — whatever devices (even fresh ones) exist. -/
theorem inactive_day_short_circuit (p : Profile) (ds : List Device) (now : Nat)
    (hoff : p.status ≠ Status.offline)
    (hday : DAY_MS < now - lastActiveVal p now) :
    (cleanupAndUpdateStatus ⟨some p, ds⟩ now false).state
      = ⟨some { p with
          status := Status.offline, deviceCount := 0, lastSeen := now }, ds⟩ := by
  cases hds : ds.isEmpty with
  | true => simp [cleanupAndUpdateStatus, hoff, hds]
  | false => simp [cleanupAndUpdateStatus, hoff, hds, hday]

/-- C3: whenever the registry's most recent heartbeat is strictly fresher
than `DEVICE_STALENESS_THRESHOLD` (15s) at evaluation time, one run of the
resolver writes `status = 'online'` on the profile — stated for runs that
reach the classification: the profile document exists and is not already
offline, the registry read succeeds, and the 24h inactivity gate does not
fire (`now` is also at least 15s past the epoch, as any real clock is). -/
theorem fresh_registry_resolves_online (p : Profile) (ds : List Device)
    (now : Nat) (hoff : p.status ≠ Status.offline) (hds : ds ≠ [])
    (hnow : DEVICE_STALENESS_THRESHOLD ≤ now)
    (hfresh : now - maxLastSeen ds < DEVICE_STALENESS_THRESHOLD)
    (hla : now - lastActiveVal p now ≤ DAY_MS) :
    (cleanupAndUpdateStatus ⟨some p, ds⟩ now false).state.profile.map
      Profile.status = some Status.online := by
  have hemp : ds.isEmpty = false := by
    cases ds with
    | nil => exact absurd rfl hds
    | cons d t => rfl
  have hday : ¬(DAY_MS < now - lastActiveVal p now) := not_lt.2 hla
  -- the device carrying the maximum lastSeen survives stale-marking intact
  obtain ⟨dm, hdm, hdmeq⟩ := exists_maxLastSeen ds hds
  have hM0 : maxLastSeen ds ≠ 0 := by
    intro h0
    rw [h0, Nat.sub_zero] at hfresh
    exact absurd hfresh (not_lt.2 hnow)
  have hdm_stale : isStale now dm = false := by
    simp only [isStale, Bool.or_eq_false_iff, beq_eq_false_iff_ne, ne_eq,
      decide_eq_false_iff_not, not_le]
    constructor
    · rw [hdmeq]; exact hM0
    · rw [hdmeq]
      calc now - maxLastSeen ds < DEVICE_STALENESS_THRESHOLD := hfresh
        _ ≤ OFFLINE_THRESHOLD := by norm_num [DEVICE_STALENESS_THRESHOLD, OFFLINE_THRESHOLD]
  have hdm_active : isActive now dm = true := by
    simp only [isActive, Bool.and_eq_true, bne_iff_ne, ne_eq, decide_eq_true_eq]
    exact ⟨by rw [hdmeq]; exact hM0, by rw [hdmeq]; exact hfresh⟩
  have hdm' : dm ∈ ds.map (markStale now) := by
    have := List.mem_map_of_mem (markStale now) hdm
    rwa [markStale_not_stale now dm hdm_stale] at this
  have hmax' : maxLastSeen ds ≤ maxLastSeen (ds.map (markStale now)) := by
    calc maxLastSeen ds = dm.lastSeen := hdmeq.symm
      _ ≤ _ := le_maxLastSeen _ dm hdm'
  have hfresh' : now - maxLastSeen (ds.map (markStale now))
      < DEVICE_STALENESS_THRESHOLD :=
    lt_of_le_of_lt (Nat.sub_le_sub_left hmax' now) hfresh
  have hemp' : (ds.map (markStale now)).isEmpty = false := by
    cases ds with
    | nil => exact absurd rfl hds
    | cons d t => rfl
  have hact' : 0 < ((ds.map (markStale now)).filter (isActive now)).length :=
    List.length_pos.mpr
      (List.ne_nil_of_mem (List.mem_filter.mpr ⟨hdm', hdm_active⟩))
  have hnooff : ¬(OFFLINE_THRESHOLD ≤ now - maxLastSeen (ds.map (markStale now))) := by
    apply not_le.2
    calc now - maxLastSeen (ds.map (markStale now))
        < DEVICE_STALENESS_THRESHOLD := hfresh'
      _ ≤ OFFLINE_THRESHOLD := by norm_num [DEVICE_STALENESS_THRESHOLD, OFFLINE_THRESHOLD]
  simp only [cleanupAndUpdateStatus, Bool.false_eq_true, if_false, if_neg hoff,
    hemp, if_neg hday]
  simp only [resolveTransaction, hemp', Bool.false_eq_true, if_false,
    if_neg hnooff, gt_iff_lt, hact', hfresh', decide_True, Bool.and_self,
    if_true, Option.map_some]
  rfl

theorem fresh_registry_resolves_online_witness :
    (cleanupAndUpdateStatus ⟨some ⟨Status.online, 0, 0, none⟩,
        [⟨1, 95000, none⟩]⟩ 100000 false).state.profile.map Profile.status
      = some Status.online :=
  fresh_registry_resolves_online ⟨Status.online, 0, 0, none⟩ [⟨1, 95000, none⟩]
    100000 (by decide) (by decide) (by decide) (by decide) (by decide)

/-- C5 (counterexample to the claim as stated): with zero device records but
a profile already marked offline with a stale `deviceCount = 7`, the resolver
returns early and does NOT reset `deviceCount` to 0 — so the resolution is
not unconditional. -/
theorem empty_registry_offline_cex :
    (cleanupAndUpdateStatus ⟨some ⟨Status.offline, 5, 7, none⟩, []⟩
        100000 false).state.profile.map Profile.deviceCount ≠ some 0 := by
  decide

/-- C5 (amended): for a user with zero device records whose profile exists
and is not already `offline`, one run of the resolver writes
`status = 'offline'`, `deviceCount = 0` and `lastSeen = now` (the empty
branch fires when the registry read succeeds); when the profile is already
offline the run changes nothing, so the status still ends up offline. -/
theorem empty_registry_resolves_offline (p : Profile) (now : Nat)
    (hoff : p.status ≠ Status.offline) :
    (cleanupAndUpdateStatus ⟨some p, []⟩ now false).state
      = ⟨some { p with
          status := Status.offline, deviceCount := 0, lastSeen := now }, []⟩ := by
  simp [cleanupAndUpdateStatus, hoff]

theorem empty_registry_resolves_offline_witness :
    (cleanupAndUpdateStatus ⟨some ⟨Status.online, 7, 5, some 50⟩, []⟩
        100000 false).state
      = ⟨some ⟨Status.offline, 100000, 0, some 50⟩, []⟩ :=
  empty_registry_resolves_offline ⟨Status.online, 7, 5, some 50⟩ 100000
    (by decide)

/-- C2 (evaluation at the failing input): scenario C — a single device whose
heartbeat is 60s old (`lastSeen = 40000` at `now = 100000`).  The cleanup
pass overwrites the stale device's `lastSeen` with `now` while marking it
offline, the transaction then re-reads the registry, classifies the device
as active again, and writes `status = 'online'`, `deviceCount = 1` — not the
`offline` / `deviceCount = 0` the claim (and the spec) require. -/
theorem scenarioC_stale_device_resurrected :
    (cleanupAndUpdateStatus ⟨some ⟨Status.online, 0, 1, some 90000⟩,
        [⟨1, 40000, none⟩]⟩ 100000 false).state
      = ⟨some ⟨Status.online, 100000, 1, some 100000⟩,
         [⟨1, 100000, some Status.offline⟩]⟩ := by
  decide

/-- C4 (evaluation at the failing input): scenario D — two devices with
heartbeats 5s and 40s old.  The 40s-old device is "cleaned up" by having its
`lastSeen` overwritten with `now`, so the transaction counts two active
devices: the run resolves `status = 'online'` (as claimed) but
`deviceCount = 2`, not the claimed `deviceCount = 1`. -/
theorem scenarioD_deviceCount_two :
    (cleanupAndUpdateStatus ⟨some ⟨Status.online, 0, 2, some 90000⟩,
        [⟨1, 95000, none⟩, ⟨2, 60000, none⟩]⟩ 100000 false).state.profile
      = some ⟨Status.online, 100000, 2, some 100000⟩ := by
  decide

/-- C1 (counterexample to the claim as stated): the visibility-change
handler's `updatePresence(false)` writes `status = 'offline'` directly onto
the profile even though re-deriving from the device registry — here a single
device seen 5s ago — yields `online`; so not every presence operation writes
`status` as a value re-derived from the device set. -/
theorem updatePresence_not_rederived_cex :
    derivedStatus [⟨1, 95000, none⟩] 100000 = Status.online ∧
    (updatePresence false 100000 ⟨Status.online, 95000, 1, none⟩).status
      = Status.offline ∧
    Status.offline ≠ Status.online := by
  decide

/-- C1 (amended): only the periodic resolver re-derives `status` from the
device records' staleness; the other presence operations set the profile's
`status` field to a fixed value chosen by the operation itself — the
heartbeat-writer initialization always writes `'online'` (and bumps
`deviceCount` by one instead of counting active devices), and the
visibility/connection/presence-update handlers write
`'online'`/`'offline'` according to their own flag — without consulting the
device set. -/
theorem presence_ops_write_status_directly (p : Profile) (ds : List Device)
    (now deviceId : Nat) (isOnline : Bool) :
    (updatePresence isOnline now p).status
        = (if isOnline then Status.online else Status.offline) ∧
    (setupPresenceInit deviceId now p ds).1.status = Status.online ∧
    (setupPresenceInit deviceId now p ds).1.deviceCount = p.deviceCount + 1 := by
  refine ⟨rfl, rfl, rfl⟩

theorem inactive_day_short_circuit_witness :
    (cleanupAndUpdateStatus ⟨some ⟨Status.online, 5, 3, some 1000⟩,
        [⟨1, 86401500, none⟩]⟩ 86402000 false).state
      = ⟨some ⟨Status.offline, 86402000, 0, some 1000⟩, [⟨1, 86401500, none⟩]⟩ :=
  inactive_day_short_circuit ⟨Status.online, 5, 3, some 1000⟩
    [⟨1, 86401500, none⟩] 86402000 (by decide) (by decide)

end Blade
